import Mathlib

/-!
Shallow embedding of the identity-token verification subsystem of the
wca-coffeetracker repository:

* src/payments/src/infrastructure/id_token.py  (class IdTokenWithJose)
* src/payments/src/infrastructure/user.py      (dataclass User)
* src/payments/src/api.py                      (endpoint get_hello_world)

Timestamps are natural numbers.  The python-jose call jwt.decode is
modelled by jose.jwt.decode below, with the claim-validation order of
python-jose (signature first, then exp, then aud, then iss); the at-hash
check is disabled in the source (verify_at_hash set to false at line 138
of id_token.py) and is therefore absent from the model.  Network effects
are modelled by passing the outcome of the JWKS fetch as an argument and
recording the requested URL in the result.
-/

namespace CoffeeTracker

/-- One JSON Web Key of the fetched key set.  The source inspects only
the kid field of each key and hands the whole key to jwt.decode; the
cryptographic material is abstracted to a number. -/
structure JWK where
  kid : String
  material : Nat
  deriving DecidableEq, Repr

/-- The decoded token header, as returned by jwt.get_unverified_header
(id_token.py line 92).  Only the kid field is read. -/
structure TokenHeader where
  kid : Option String
  deriving DecidableEq, Repr

/-- The claims of a token.  Field cognito_username models the claim
named cognito:username, custom_role the claim custom:role, and
custom_organization the claim custom:organization.  A none field models
an absent claim. -/
structure Claims where
  sub : Option String
  email : Option String
  cognito_username : Option String
  custom_role : Option String
  custom_organization : Option String
  picture : Option String
  phone_number : Option String
  email_verified : Option Bool
  token_use : Option String
  aud : Option String
  iss : Option String
  exp : Option Nat
  deriving DecidableEq, Repr

/-- A presented identity token.  header is the outcome of decoding the
token header (none models a token whose header cannot be decoded);
signedBy is the material of the key whose private half produced the
signature (none models a signature matching no key at all). -/
structure IdToken where
  header : Option TokenHeader
  claims : Claims
  signedBy : Option Nat
  deriving DecidableEq, Repr

/-- The dataclass User of src/payments/src/infrastructure/user.py. -/
structure User where
  id : String
  email : String
  name : String
  role : String
  customer_id : String
  picture : String
  phone_number : String
  enabled : Bool
  deriving DecidableEq, Repr

/-- The class attributes of IdTokenWithJose (id_token.py lines 11 to 15).
The source stores them in mutable class attributes; the embedding passes
this record explicitly and threads it through the stateful variant of
get_user below. -/
structure CognitoConfig where
  aws_region : Option String
  deployment_id : Option String
  cognito_region : Option String
  cognito_user_pool_id : Option String
  cognito_client_ids : List String
  deriving DecidableEq, Repr

/-- Rendering of an optional string inside a Python f-string: None
prints as the text None. -/
def str_of_opt : Option String → String
  | some s => s
  | none => "None"

/-- The exceptions distinguished by the except clauses of the audience
loop (id_token.py lines 143 to 157): the expired-signature exception,
the audience exception, the issuer exception, and any other verification
failure (for example a signature that does not verify under the located
key), which the source catches with its generic except clause. -/
inductive JoseError where
  | signatureError
  | expiredSignature
  | invalidAudience
  | invalidIssuer
  deriving DecidableEq, Repr

/-- The distinct ValueError raise sites of verify_id_token, one
constructor per message:
configInvalidPoolId line 85, configInvalidClientIds line 88,
malformedToken lines 97 and 101 (undecodable header or missing kid),
jwksUnavailable line 110, unknownSigningKey line 118,
tokenExpired line 145, issuerMismatch line 153,
audienceMismatch line 183, verificationFailedAll line 185 (reachable
only when the loop body never ran, dead once the id list is non-empty). -/
inductive VerifyError where
  | configInvalidPoolId
  | configInvalidClientIds
  | malformedToken
  | jwksUnavailable
  | unknownSigningKey
  | tokenExpired
  | issuerMismatch
  | audienceMismatch
  | verificationFailedAll
  deriving DecidableEq, Repr

namespace jose
namespace jwt

/-- Expiry check of python-jose: the expired-signature exception is
raised exactly when the exp claim is present and smaller than the
current time (leeway zero); a missing exp claim is not checked. -/
def claim_expired (c : Claims) (now : Nat) : Bool :=
  match c.exp with
  | none => false
  | some e => decide (e < now)

/-- Audience check of python-jose: a missing aud claim is not checked;
a present aud claim must equal the audience argument. -/
def aud_mismatch (c : Claims) (audience : String) : Bool :=
  match c.aud with
  | none => false
  | some a => a != audience

/-- Issuer check of python-jose: the iss claim must equal the issuer
argument; a missing iss claim mismatches. -/
def iss_mismatch (c : Claims) (issuer : String) : Bool :=
  c.iss != some issuer

/-- Model of jose.jwt.decode as called at id_token.py line 132:
signature verification first, then the claim checks in the order of the
python-jose claim validation: exp, then aud, then iss.  The at-hash
check is disabled by the call site. -/
def decode (t : IdToken) (key : JWK) (audience issuer : String) (now : Nat) :
    Except JoseError Claims :=
  if t.signedBy != some key.material then .error .signatureError
  else if claim_expired t.claims now then .error .expiredSignature
  else if aud_mismatch t.claims audience then .error .invalidAudience
  else if iss_mismatch t.claims issuer then .error .invalidIssuer
  else .ok t.claims

end jwt
end jose

namespace IdTokenWithJose

/-- The URL built by get_cognito_jwks (id_token.py line 69): the region
sits inside the hostname and the pool id is the only path segment before
the well-known suffix. -/
def get_cognito_jwks_url (region poolId : String) : String :=
  "https://cognito-idp." ++ region ++ ".amazonaws.com/" ++ poolId ++ "/.well-known/jwks.json"

/-- The expected issuer string (id_token.py line 121), computed once per
verify_id_token call, before the audience loop. -/
def expected_issuer (region poolId : String) : String :=
  "https://cognito-idp." ++ region ++ ".amazonaws.com/" ++ poolId

/-- The audience loop of verify_id_token (id_token.py lines 126 to 185).
The first component is the returned claims or the raised error; the
second records, for every jwt.decode call made, the audience and the
issuer passed to it, in order.  The Option argument models the
last_error variable: an expired-signature exception re-raises as
tokenExpired, an audience exception is remembered and the next client id
is tried, an issuer exception re-raises as issuerMismatch, and any other
exception is remembered and the next client id is tried; after the loop,
audienceMismatch is raised when last_error was set, otherwise
verificationFailedAll (lines 182 to 185). -/
def try_client_ids (t : IdToken) (key : JWK) (issuer : String) (now : Nat) :
    List String → Option JoseError → Except VerifyError Claims × List (String × String)
  | [], none => (.error .verificationFailedAll, [])
  | [], some _ => (.error .audienceMismatch, [])
  | cid :: rest, _lastError =>
    match jose.jwt.decode t key cid issuer now with
    | .ok claims => (.ok claims, [(cid, issuer)])
    | .error .expiredSignature => (.error .tokenExpired, [(cid, issuer)])
    | .error .invalidAudience =>
      let r := try_client_ids t key issuer now rest (some .invalidAudience)
      (r.1, (cid, issuer) :: r.2)
    | .error .invalidIssuer => (.error .issuerMismatch, [(cid, issuer)])
    | .error .signatureError =>
      let r := try_client_ids t key issuer now rest (some .signatureError)
      (r.1, (cid, issuer) :: r.2)

instance {ε α : Type} [DecidableEq ε] [DecidableEq α] : DecidableEq (Except ε α) := fun x y =>
  match x, y with
  | .ok a, .ok b =>
    if h : a = b then isTrue (by rw [h]) else isFalse (by intro he; cases he; exact h rfl)
  | .error a, .error b =>
    if h : a = b then isTrue (by rw [h]) else isFalse (by intro he; cases he; exact h rfl)
  | .ok _, .error _ => isFalse (by intro he; cases he)
  | .error _, .ok _ => isFalse (by intro he; cases he)

/-- Observable outcome of one verify_id_token call: the returned claims
or raised error, the URL of the JWKS GET when one was issued (none when
the function returned before fetching), and the audience and issuer
arguments of every jwt.decode attempt, in order. -/
structure VerifyOutcome where
  result : Except VerifyError Claims
  fetchTarget : Option String
  attempts : List (String × String)
  deriving DecidableEq, Repr

/-- IdTokenWithJose.verify_id_token (id_token.py lines 74 to 185).  The
fetch argument is the outcome of the JWKS network call: ok carries the
parsed key list, error models an unreachable endpoint or an unparsable
body, both wrapped by the source into the same ValueError at line 110.
The falsy checks of the source are kept: a pool id that is None or the
empty string and an empty client id list are configuration errors, and
a kid that is None or the empty string is a malformed token. -/
def verify_id_token (cfg : CognitoConfig) (now : Nat)
    (fetch : Except Unit (List JWK)) (t : IdToken) : VerifyOutcome :=
  match cfg.cognito_user_pool_id with
  | none => ⟨.error .configInvalidPoolId, none, []⟩
  | some poolId =>
    if poolId = "" then ⟨.error .configInvalidPoolId, none, []⟩
    else if cfg.cognito_client_ids = [] then ⟨.error .configInvalidClientIds, none, []⟩
    else
      match t.header with
      | none => ⟨.error .malformedToken, none, []⟩
      | some hdr =>
        match hdr.kid with
        | none => ⟨.error .malformedToken, none, []⟩
        | some kid =>
          if kid = "" then ⟨.error .malformedToken, none, []⟩
          else
            match fetch with
            | .error _ =>
              ⟨.error .jwksUnavailable,
                some (get_cognito_jwks_url (str_of_opt cfg.cognito_region) poolId), []⟩
            | .ok keys =>
              match keys.find? (fun k => k.kid == kid) with
              | none =>
                ⟨.error .unknownSigningKey,
                  some (get_cognito_jwks_url (str_of_opt cfg.cognito_region) poolId), []⟩
              | some key =>
                let issuer := expected_issuer (str_of_opt cfg.cognito_region) poolId
                let r := try_client_ids t key issuer now cfg.cognito_client_ids none
                ⟨r.1, some (get_cognito_jwks_url (str_of_opt cfg.cognito_region) poolId), r.2⟩

/-- IdTokenWithJose.get_user (id_token.py lines 187 to 219): none for a
missing token, none for any verification error (every exception from
verify_id_token is caught at line 198 and converted to None), none for a
token_use claim other than id; otherwise the User is built from the
claims with empty-string and false defaults for absent claims. -/
def get_user (cfg : CognitoConfig) (now : Nat) (fetch : Except Unit (List JWK))
    (cognito_id_token : Option IdToken) : Option User :=
  match cognito_id_token with
  | none => none
  | some t =>
    match (verify_id_token cfg now fetch t).result with
    | .error _ => none
    | .ok claims =>
      if claims.token_use = some "id" then
        some ⟨claims.sub.getD "", claims.email.getD "", claims.cognito_username.getD "",
          claims.custom_role.getD "", claims.custom_organization.getD "",
          claims.picture.getD "", claims.phone_number.getD "",
          claims.email_verified.getD false⟩
      else none

/-- verify_id_token and get_user read the class attributes but assign to
none of them: the only writer in the source is set_environment, which is
not on the verification path.  Threading the class state explicitly,
get_user returns it unchanged. -/
def get_user_st (cfg : CognitoConfig) (now : Nat) (fetch : Except Unit (List JWK))
    (cognito_id_token : Option IdToken) : Option User × CognitoConfig :=
  (get_user cfg now fetch cognito_id_token, cfg)

end IdTokenWithJose

namespace api

/-- A transport-level answer of the endpoint: a 200 body or an HTTP
error status with its detail string. -/
inductive ApiResponse where
  | ok (body : String)
  | httpError (status : Nat) (detail : String)
  deriving DecidableEq, Repr

/-- Outcome of one endpoint call; authCalled records whether
IdTokenWithJose.get_user was invoked. -/
structure EndpointOutcome where
  response : ApiResponse
  authCalled : Bool
  deriving DecidableEq, Repr

/-- api.get_hello_world (api.py lines 41 to 93).  The argument is the
X-IdToken request header; none models an absent or empty header (the
falsy check at line 52), answered 401 before get_user is called.  A none
from get_user maps to the 401 of line 77 and a user to the 200 of line
84.  The 500 branch of line 90 is reachable only by an exception
escaping get_user, which itself catches every exception of verification,
so it has no image in the model. -/
def get_hello_world (cfg : CognitoConfig) (now : Nat)
    (fetch : Except Unit (List JWK)) (x_id_token : Option IdToken) : EndpointOutcome :=
  match x_id_token with
  | none => ⟨.httpError 401 "No ID token provided. Expected X-IdToken header.", false⟩
  | some t =>
    match IdTokenWithJose.get_user cfg now fetch (some t) with
    | none => ⟨.httpError 401 "Invalid or expired token. Check server logs for details.", true⟩
    | some u => ⟨.ok ("Hello, " ++ u.email), true⟩

end api

/-- The key-set URL shape as the spec words it in section 6: an issuer
host followed by the issuer region and the pool id as path segments.
Written from the words of the spec, to be compared with
IdTokenWithJose.get_cognito_jwks_url, which is written from the source. -/
def spec_jwks_url (host region poolId : String) : String :=
  "https://" ++ host ++ "/" ++ region ++ "/" ++ poolId ++ "/.well-known/jwks.json"

/-- The verify error raised when an attempt fails fatally: the
expired-signature exception maps to tokenExpired and the issuer
exception to issuerMismatch (the other two constructors never reach a
fatal raise). -/
def fatal_error : JoseError → VerifyError
  | .expiredSignature => .tokenExpired
  | .invalidIssuer => .issuerMismatch
  | .invalidAudience => .audienceMismatch
  | .signatureError => .audienceMismatch

/-! Concrete fixtures used by the closed witness and counterexample
theorems below: one configured trust anchor with two client ids, one
published signing key, and a family of tokens differing in one aspect
each. -/

/-- The one published signing key of the fixtures. -/
def key0 : JWK := ⟨"kid1", 42⟩

/-- The fetched key set of the fixtures. -/
def keys0 : List JWK := [key0]

/-- A successful JWKS fetch returning keys0. -/
def fetch0 : Except Unit (List JWK) := .ok keys0

/-- A fully resolved configuration with two client ids. -/
def cfg0 : CognitoConfig :=
  ⟨some "us-east-1", some "dep1", some "us-east-1", some "pool1", ["clientA", "clientB"]⟩

/-- A configuration whose pool id was never resolved. -/
def cfg_nopool : CognitoConfig :=
  ⟨some "us-east-1", some "dep1", some "us-east-1", none, ["clientA", "clientB"]⟩

/-- The canonical issuer of cfg0. -/
def iss0 : String := "https://cognito-idp.us-east-1.amazonaws.com/pool1"

/-- Claims of a valid identity token for the second client id of cfg0. -/
def claims0 : Claims :=
  ⟨some "user-1", some "user@example.com", some "alice", none, none, none, none,
    some true, some "id", some "clientB", some iss0, some 1000⟩

/-- A token that verifies against cfg0 at time 500 via the second
client id. -/
def tok0 : IdToken := ⟨some ⟨some "kid1"⟩, claims0, some 42⟩

/-- The User that get_user builds from claims0. -/
def user0 : User := ⟨"user-1", "user@example.com", "alice", "", "", "", "", true⟩

/-- Like tok0 but already expired at time 500. -/
def tok_expired : IdToken := ⟨some ⟨some "kid1"⟩, { claims0 with exp := some 100 }, some 42⟩

/-- Like tok0 but carrying token_use access. -/
def tok_access : IdToken := ⟨some ⟨some "kid1"⟩, { claims0 with token_use := some "access" }, some 42⟩

/-- Like tok0 but issued by a foreign issuer. -/
def tok_issbad : IdToken :=
  ⟨some ⟨some "kid1"⟩, { claims0 with iss := some "https://evil.example.com/pool1" }, some 42⟩

/-- Like tok0 but signed by key material matching no published key,
though its kid names the published key. -/
def tok_badsig : IdToken := ⟨some ⟨some "kid1"⟩, claims0, some 43⟩

/-- Like tok0 but addressed to a client id outside the audience set. -/
def tok_noaud : IdToken := ⟨some ⟨some "kid1"⟩, { claims0 with aud := some "clientC" }, some 42⟩

/-! Helper lemmas about jose.jwt.decode and the audience loop. -/

theorem jose_decode_ok (t : IdToken) (key : JWK) (a issuer : String) (now : Nat)
    (hsig : t.signedBy = some key.material)
    (hexp : jose.jwt.claim_expired t.claims now = false)
    (haud : t.claims.aud = some a)
    (hiss : t.claims.iss = some issuer) :
    jose.jwt.decode t key a issuer now = .ok t.claims := by
  simp [jose.jwt.decode, jose.jwt.aud_mismatch, jose.jwt.iss_mismatch, hsig, hexp, haud, hiss]

theorem jose_decode_aud_mismatch (t : IdToken) (key : JWK) (cid a issuer : String) (now : Nat)
    (hsig : t.signedBy = some key.material)
    (hexp : jose.jwt.claim_expired t.claims now = false)
    (haud : t.claims.aud = some a)
    (hne : cid ≠ a) :
    jose.jwt.decode t key cid issuer now = .error .invalidAudience := by
  have hne2 : a ≠ cid := fun h => hne h.symm
  simp [jose.jwt.decode, jose.jwt.aud_mismatch, hsig, hexp, haud, hne2]

theorem jose_decode_expired (t : IdToken) (key : JWK) (cid issuer : String) (now : Nat)
    (hsig : t.signedBy = some key.material)
    (hexp : jose.jwt.claim_expired t.claims now = true) :
    jose.jwt.decode t key cid issuer now = .error .expiredSignature := by
  simp [jose.jwt.decode, hsig, hexp]

theorem jose_decode_iss_mismatch (t : IdToken) (key : JWK) (cid issuer : String) (now : Nat)
    (hsig : t.signedBy = some key.material)
    (hexp : jose.jwt.claim_expired t.claims now = false)
    (haud : t.claims.aud = some cid)
    (hiss : t.claims.iss ≠ some issuer) :
    jose.jwt.decode t key cid issuer now = .error .invalidIssuer := by
  simp [jose.jwt.decode, jose.jwt.aud_mismatch, jose.jwt.iss_mismatch, hsig, hexp, haud, hiss]

theorem jose_decode_sig_error (t : IdToken) (key : JWK) (cid issuer : String) (now : Nat)
    (hsig : t.signedBy ≠ some key.material) :
    jose.jwt.decode t key cid issuer now = .error .signatureError := by
  simp [jose.jwt.decode, hsig]

namespace IdTokenWithJose

/-- Every recorded attempt of the loop carries the issuer argument the
loop was entered with. -/
theorem try_client_ids_issuer_fixed (t : IdToken) (key : JWK) (issuer : String) (now : Nat) :
    ∀ (l : List String) (lastError : Option JoseError) (pr : String × String),
      pr ∈ (try_client_ids t key issuer now l lastError).2 → pr.2 = issuer := by
  intro l
  induction l with
  | nil =>
    intro lastError pr hpr
    cases lastError <;> simp [try_client_ids] at hpr
  | cons cid rest ih =>
    intro lastError pr hpr
    cases hdec : jose.jwt.decode t key cid issuer now with
    | ok c =>
      simp [try_client_ids, hdec] at hpr
      rw [hpr]
    | error e =>
      cases e <;> simp [try_client_ids, hdec] at hpr
      case signatureError =>
        rcases hpr with hpr | hpr
        · rw [hpr]
        · exact ih (some .signatureError) pr hpr
      case expiredSignature => rw [hpr]
      case invalidAudience =>
        rcases hpr with hpr | hpr
        · rw [hpr]
        · exact ih (some .invalidAudience) pr hpr
      case invalidIssuer => rw [hpr]

/-- When one client id decodes successfully and any other client id can
only fail with the audience exception, the loop returns the claims,
whatever position the matching id has and whatever was remembered so
far. -/
theorem try_client_ids_ok_of_mem (t : IdToken) (key : JWK) (issuer : String) (now : Nat) :
    ∀ (l : List String) (lastError : Option JoseError) (a : String),
      a ∈ l →
      (∀ cid, cid ≠ a → jose.jwt.decode t key cid issuer now = .error .invalidAudience) →
      jose.jwt.decode t key a issuer now = .ok t.claims →
      (try_client_ids t key issuer now l lastError).1 = .ok t.claims := by
  intro l
  induction l with
  | nil => intro lastError a ha _ _; cases ha
  | cons cid rest ih =>
    intro lastError a ha hmis hok
    by_cases hc : cid = a
    · rw [hc]
      simp [try_client_ids, hok]
    · have hd := hmis cid hc
      have ha2 : a ∈ rest := by
        rcases List.mem_cons.mp ha with h | h
        · exact absurd h.symm hc
        · exact h
      simp [try_client_ids, hd]
      exact ih (some .invalidAudience) a ha2 hmis hok

/-- With last_error already set, a loop whose every attempt fails with
the audience exception or the generic exception exhausts the whole list
and ends in the audience-mismatch raise. -/
theorem try_client_ids_all_retry_some (t : IdToken) (key : JWK) (issuer : String) (now : Nat) :
    ∀ (l : List String) (e0 : JoseError),
      (∀ cid ∈ l, jose.jwt.decode t key cid issuer now = .error .invalidAudience ∨
        jose.jwt.decode t key cid issuer now = .error .signatureError) →
      try_client_ids t key issuer now l (some e0) =
        (.error .audienceMismatch, l.map (fun c => (c, issuer))) := by
  intro l
  induction l with
  | nil => intro e0 _; simp [try_client_ids]
  | cons cid rest ih =>
    intro e0 hall
    rcases hall cid (List.mem_cons_self cid rest) with hd | hd
    · simp [try_client_ids, hd]
      simp [ih .invalidAudience (fun x hx => hall x (List.mem_cons_of_mem cid hx))]
    · simp [try_client_ids, hd]
      simp [ih .signatureError (fun x hx => hall x (List.mem_cons_of_mem cid hx))]

/-- A non-empty loop whose every attempt fails with the audience
exception or the generic exception exhausts the whole list and ends in
the audience-mismatch raise. -/
theorem try_client_ids_all_retry (t : IdToken) (key : JWK) (issuer : String) (now : Nat) :
    ∀ (l : List String), l ≠ [] →
      (∀ cid ∈ l, jose.jwt.decode t key cid issuer now = .error .invalidAudience ∨
        jose.jwt.decode t key cid issuer now = .error .signatureError) →
      try_client_ids t key issuer now l none =
        (.error .audienceMismatch, l.map (fun c => (c, issuer))) := by
  intro l hne hall
  cases l with
  | nil => exact absurd rfl hne
  | cons cid rest =>
    rcases hall cid (List.mem_cons_self cid rest) with hd | hd
    · simp [try_client_ids, hd]
      simp [try_client_ids_all_retry_some t key issuer now rest .invalidAudience
        (fun x hx => hall x (List.mem_cons_of_mem cid hx))]
    · simp [try_client_ids, hd]
      simp [try_client_ids_all_retry_some t key issuer now rest .signatureError
        (fun x hx => hall x (List.mem_cons_of_mem cid hx))]

/-- A fatal attempt, reached after retryable failures only, stops the
loop at that attempt: its error is raised and nothing after it is
tried. -/
theorem try_client_ids_fatal (t : IdToken) (key : JWK) (issuer : String) (now : Nat) :
    ∀ (l1 : List String) (c : String) (l2 : List String) (lastError : Option JoseError)
      (ce : JoseError),
      (∀ x ∈ l1, jose.jwt.decode t key x issuer now = .error .invalidAudience ∨
        jose.jwt.decode t key x issuer now = .error .signatureError) →
      jose.jwt.decode t key c issuer now = .error ce →
      (ce = .expiredSignature ∨ ce = .invalidIssuer) →
      try_client_ids t key issuer now (l1 ++ c :: l2) lastError =
        (.error (fatal_error ce), (l1 ++ [c]).map (fun x => (x, issuer))) := by
  intro l1
  induction l1 with
  | nil =>
    intro c l2 lastError ce _ hc hce
    rcases hce with h | h
    · rw [h] at hc
      rw [h]
      simp [try_client_ids, hc, fatal_error]
    · rw [h] at hc
      rw [h]
      simp [try_client_ids, hc, fatal_error]
  | cons x l1 ih =>
    intro c l2 lastError ce hretry hc hce
    rcases hretry x (List.mem_cons_self x l1) with hd | hd
    · simp [try_client_ids, hd]
      simp [ih c l2 (some .invalidAudience) ce
        (fun y hy => hretry y (List.mem_cons_of_mem x hy)) hc hce]
    · simp [try_client_ids, hd]
      simp [ih c l2 (some .signatureError) ce
        (fun y hy => hretry y (List.mem_cons_of_mem x hy)) hc hce]

/-- Under a complete configuration, a decodable header with a non-empty
kid, a successful fetch and a located key, verify_id_token is the
audience loop, with the JWKS URL recorded and the issuer fixed before
the loop. -/
theorem verify_id_token_reaches_loop (cfg : CognitoConfig) (now : Nat)
    (fetch : Except Unit (List JWK)) (t : IdToken)
    (p kid : String) (hdr : TokenHeader) (keys : List JWK) (key : JWK)
    (hpool : cfg.cognito_user_pool_id = some p) (hp : p ≠ "")
    (hcl : cfg.cognito_client_ids ≠ [])
    (hhdr : t.header = some hdr) (hkid : hdr.kid = some kid) (hk : kid ≠ "")
    (hf : fetch = .ok keys)
    (hfind : keys.find? (fun k => k.kid == kid) = some key) :
    verify_id_token cfg now fetch t =
      ⟨(try_client_ids t key (expected_issuer (str_of_opt cfg.cognito_region) p) now
          cfg.cognito_client_ids none).1,
        some (get_cognito_jwks_url (str_of_opt cfg.cognito_region) p),
        (try_client_ids t key (expected_issuer (str_of_opt cfg.cognito_region) p) now
          cfg.cognito_client_ids none).2⟩ := by
  simp [verify_id_token, hpool, hp, hcl, hhdr, hkid, hk, hf, hfind]

end IdTokenWithJose

/-! Claim theorems. -/

/-- C1: for every token whose signature, issuer and expiry are valid and
whose audience claim equals the k-th identifier of the configured
audience set (any k), verify_id_token succeeds and returns the verified
claims carrying that audience; audience-only mismatches on earlier
identifiers do not abort the trial. -/
theorem verify_id_token_accepts_kth_audience
    (cfg : CognitoConfig) (now : Nat) (fetch : Except Unit (List JWK)) (t : IdToken)
    (p kid : String) (hdr : TokenHeader) (keys : List JWK) (key : JWK)
    (k : Nat) (hk : k < cfg.cognito_client_ids.length) (a : String)
    (hpool : cfg.cognito_user_pool_id = some p) (hp : p ≠ "")
    (hhdr : t.header = some hdr) (hkid : hdr.kid = some kid) (hkne : kid ≠ "")
    (hf : fetch = .ok keys)
    (hfind : keys.find? (fun j => j.kid == kid) = some key)
    (ha : cfg.cognito_client_ids.get ⟨k, hk⟩ = a)
    (hsig : t.signedBy = some key.material)
    (hexp : jose.jwt.claim_expired t.claims now = false)
    (haud : t.claims.aud = some a)
    (hiss : t.claims.iss =
      some (IdTokenWithJose.expected_issuer (str_of_opt cfg.cognito_region) p)) :
    (IdTokenWithJose.verify_id_token cfg now fetch t).result = .ok t.claims ∧
    t.claims.aud = some a := by
  have hcl : cfg.cognito_client_ids ≠ [] := by
    intro h0
    rw [h0] at hk
    simp at hk
  rw [IdTokenWithJose.verify_id_token_reaches_loop cfg now fetch t p kid hdr keys key
    hpool hp hcl hhdr hkid hkne hf hfind]
  refine ⟨?_, haud⟩
  have hmem : a ∈ cfg.cognito_client_ids := ha ▸ cfg.cognito_client_ids.get_mem k hk
  exact IdTokenWithJose.try_client_ids_ok_of_mem t key
    (IdTokenWithJose.expected_issuer (str_of_opt cfg.cognito_region) p) now
    cfg.cognito_client_ids none a hmem
    (fun cid hne => jose_decode_aud_mismatch t key cid a
      (IdTokenWithJose.expected_issuer (str_of_opt cfg.cognito_region) p) now
      hsig hexp haud hne)
    (jose_decode_ok t key a
      (IdTokenWithJose.expected_issuer (str_of_opt cfg.cognito_region) p) now
      hsig hexp haud hiss)

/-- C1 witness: tok0 matches the second of the two configured client ids
of cfg0 and verifies. -/
theorem verify_id_token_accepts_kth_audience_witness :
    (IdTokenWithJose.verify_id_token cfg0 500 fetch0 tok0).result = .ok tok0.claims ∧
    tok0.claims.aud = some "clientB" :=
  verify_id_token_accepts_kth_audience cfg0 500 fetch0 tok0 "pool1" "kid1" ⟨some "kid1"⟩
    keys0 key0 1 (by decide) "clientB" rfl (by decide) rfl rfl (by decide) rfl rfl rfl rfl
    (by decide) rfl rfl

/-- C2: once the loop is reached, an attempt that fails with the expired
or the issuer exception, after attempts that failed only retryably,
stops the trial at that attempt: the corresponding error is surfaced and
no remaining audience is tried. -/
theorem verify_id_token_fatal_error_short_circuits
    (cfg : CognitoConfig) (now : Nat) (fetch : Except Unit (List JWK)) (t : IdToken)
    (p kid : String) (hdr : TokenHeader) (keys : List JWK) (key : JWK)
    (l1 l2 : List String) (c : String) (ce : JoseError)
    (hpool : cfg.cognito_user_pool_id = some p) (hp : p ≠ "")
    (hhdr : t.header = some hdr) (hkid : hdr.kid = some kid) (hkne : kid ≠ "")
    (hf : fetch = .ok keys)
    (hfind : keys.find? (fun j => j.kid == kid) = some key)
    (hsplit : cfg.cognito_client_ids = l1 ++ c :: l2)
    (hretry : ∀ x ∈ l1,
      jose.jwt.decode t key x
        (IdTokenWithJose.expected_issuer (str_of_opt cfg.cognito_region) p) now =
        .error .invalidAudience ∨
      jose.jwt.decode t key x
        (IdTokenWithJose.expected_issuer (str_of_opt cfg.cognito_region) p) now =
        .error .signatureError)
    (hc : jose.jwt.decode t key c
      (IdTokenWithJose.expected_issuer (str_of_opt cfg.cognito_region) p) now = .error ce)
    (hce : ce = .expiredSignature ∨ ce = .invalidIssuer) :
    (IdTokenWithJose.verify_id_token cfg now fetch t).result = .error (fatal_error ce) ∧
    (IdTokenWithJose.verify_id_token cfg now fetch t).attempts =
      (l1 ++ [c]).map
        (fun x => (x, IdTokenWithJose.expected_issuer (str_of_opt cfg.cognito_region) p)) := by
  have hcl : cfg.cognito_client_ids ≠ [] := by
    rw [hsplit]
    intro h0
    rcases List.append_eq_nil.mp h0 with ⟨_, h2⟩
    cases h2
  rw [IdTokenWithJose.verify_id_token_reaches_loop cfg now fetch t p kid hdr keys key
    hpool hp hcl hhdr hkid hkne hf hfind]
  rw [hsplit]
  rw [IdTokenWithJose.try_client_ids_fatal t key
    (IdTokenWithJose.expected_issuer (str_of_opt cfg.cognito_region) p) now
    l1 c l2 none ce hretry hc hce]
  exact ⟨rfl, rfl⟩

/-- C2 witness: tok_issbad mismatches the first client id of cfg0 on the
audience only, then fails the issuer check at the second client id; the
issuer error is surfaced and the trial stops there. -/
theorem verify_id_token_fatal_error_short_circuits_witness :
    (IdTokenWithJose.verify_id_token cfg0 500 fetch0 tok_issbad).result =
      .error .issuerMismatch ∧
    (IdTokenWithJose.verify_id_token cfg0 500 fetch0 tok_issbad).attempts =
      [("clientA", iss0), ("clientB", iss0)] :=
  verify_id_token_fatal_error_short_circuits cfg0 500 fetch0 tok_issbad "pool1" "kid1"
    ⟨some "kid1"⟩ keys0 key0 ["clientA"] [] "clientB" .invalidIssuer rfl (by decide)
    rfl rfl (by decide) rfl rfl rfl
    (by
      intro x hx
      rw [List.mem_singleton] at hx
      rw [hx]
      exact Or.inl rfl)
    rfl (Or.inr rfl)

/-- C3: a token whose audience claim lies in none of the configured
identifiers, with signature, expiry and issuer otherwise valid, fails
with the audience-mismatch error, and only after every configured
audience has been tried. -/
theorem verify_id_token_audience_mismatch_after_all
    (cfg : CognitoConfig) (now : Nat) (fetch : Except Unit (List JWK)) (t : IdToken)
    (p kid : String) (hdr : TokenHeader) (keys : List JWK) (key : JWK) (a : String)
    (hpool : cfg.cognito_user_pool_id = some p) (hp : p ≠ "")
    (hcl : cfg.cognito_client_ids ≠ [])
    (hhdr : t.header = some hdr) (hkid : hdr.kid = some kid) (hkne : kid ≠ "")
    (hf : fetch = .ok keys)
    (hfind : keys.find? (fun j => j.kid == kid) = some key)
    (hsig : t.signedBy = some key.material)
    (hexp : jose.jwt.claim_expired t.claims now = false)
    (haud : t.claims.aud = some a)
    (hnot : a ∉ cfg.cognito_client_ids)
    (_hiss : t.claims.iss =
      some (IdTokenWithJose.expected_issuer (str_of_opt cfg.cognito_region) p)) :
    (IdTokenWithJose.verify_id_token cfg now fetch t).result = .error .audienceMismatch ∧
    (IdTokenWithJose.verify_id_token cfg now fetch t).attempts =
      cfg.cognito_client_ids.map
        (fun x => (x, IdTokenWithJose.expected_issuer (str_of_opt cfg.cognito_region) p)) := by
  rw [IdTokenWithJose.verify_id_token_reaches_loop cfg now fetch t p kid hdr keys key
    hpool hp hcl hhdr hkid hkne hf hfind]
  rw [IdTokenWithJose.try_client_ids_all_retry t key
    (IdTokenWithJose.expected_issuer (str_of_opt cfg.cognito_region) p) now
    cfg.cognito_client_ids hcl
    (fun cid hcid => Or.inl (jose_decode_aud_mismatch t key cid a
      (IdTokenWithJose.expected_issuer (str_of_opt cfg.cognito_region) p) now
      hsig hexp haud (fun heq => hnot (heq ▸ hcid))))]
  exact ⟨rfl, rfl⟩

/-- C3 witness: tok_noaud carries audience clientC, outside the audience
set of cfg0; both configured audiences are tried and the audience
mismatch is raised. -/
theorem verify_id_token_audience_mismatch_after_all_witness :
    (IdTokenWithJose.verify_id_token cfg0 500 fetch0 tok_noaud).result =
      .error .audienceMismatch ∧
    (IdTokenWithJose.verify_id_token cfg0 500 fetch0 tok_noaud).attempts =
      [("clientA", iss0), ("clientB", iss0)] :=
  verify_id_token_audience_mismatch_after_all cfg0 500 fetch0 tok_noaud "pool1" "kid1"
    ⟨some "kid1"⟩ keys0 key0 "clientC" rfl (by decide) (by decide) rfl rfl (by decide)
    rfl rfl rfl rfl rfl (by decide) rfl

/-- C10: when every configured audience fails with an error that is
neither the expired, the issuer, nor the audience exception (for example
a signature invalid under the located key), the loop retries every
remaining audience and, the set exhausted, raises the audience-mismatch
error rather than a signature-specific one. -/
theorem verify_id_token_signature_failures_exhaust_audiences
    (cfg : CognitoConfig) (now : Nat) (fetch : Except Unit (List JWK)) (t : IdToken)
    (p kid : String) (hdr : TokenHeader) (keys : List JWK) (key : JWK)
    (hpool : cfg.cognito_user_pool_id = some p) (hp : p ≠ "")
    (hcl : cfg.cognito_client_ids ≠ [])
    (hhdr : t.header = some hdr) (hkid : hdr.kid = some kid) (hkne : kid ≠ "")
    (hf : fetch = .ok keys)
    (hfind : keys.find? (fun j => j.kid == kid) = some key)
    (hall : ∀ cid ∈ cfg.cognito_client_ids,
      jose.jwt.decode t key cid
        (IdTokenWithJose.expected_issuer (str_of_opt cfg.cognito_region) p) now =
        .error .signatureError) :
    (IdTokenWithJose.verify_id_token cfg now fetch t).result = .error .audienceMismatch ∧
    (IdTokenWithJose.verify_id_token cfg now fetch t).attempts =
      cfg.cognito_client_ids.map
        (fun x => (x, IdTokenWithJose.expected_issuer (str_of_opt cfg.cognito_region) p)) := by
  rw [IdTokenWithJose.verify_id_token_reaches_loop cfg now fetch t p kid hdr keys key
    hpool hp hcl hhdr hkid hkne hf hfind]
  rw [IdTokenWithJose.try_client_ids_all_retry t key
    (IdTokenWithJose.expected_issuer (str_of_opt cfg.cognito_region) p) now
    cfg.cognito_client_ids hcl (fun cid hcid => Or.inr (hall cid hcid))]
  exact ⟨rfl, rfl⟩

/-- C10 witness: tok_badsig names the published kid but is signed with
other key material; both audiences are attempted and the final error is
the audience mismatch, not a signature error. -/
theorem verify_id_token_signature_failures_exhaust_audiences_witness :
    (IdTokenWithJose.verify_id_token cfg0 500 fetch0 tok_badsig).result =
      .error .audienceMismatch ∧
    (IdTokenWithJose.verify_id_token cfg0 500 fetch0 tok_badsig).attempts =
      [("clientA", iss0), ("clientB", iss0)] :=
  verify_id_token_signature_failures_exhaust_audiences cfg0 500 fetch0 tok_badsig "pool1"
    "kid1" ⟨some "kid1"⟩ keys0 key0 rfl (by decide) (by decide) rfl rfl (by decide) rfl rfl
    (by
      intro cid hcid
      rcases List.mem_cons.mp hcid with h | h
      · rw [h]; rfl
      · rw [List.mem_singleton] at h
        rw [h]; rfl)

/-- C4: a missing (or empty) issuer pool identifier or an empty audience
set makes verify_id_token fail with the configuration error before any
network call: no key-set fetch is performed, whatever the fetch would
have returned. -/
theorem verify_id_token_config_invalid_before_fetch
    (cfg : CognitoConfig) (now : Nat) (fetch : Except Unit (List JWK)) (t : IdToken)
    (hbad : cfg.cognito_user_pool_id = none ∨ cfg.cognito_user_pool_id = some "" ∨
      cfg.cognito_client_ids = []) :
    ((IdTokenWithJose.verify_id_token cfg now fetch t).result =
        .error .configInvalidPoolId ∨
      (IdTokenWithJose.verify_id_token cfg now fetch t).result =
        .error .configInvalidClientIds) ∧
    (IdTokenWithJose.verify_id_token cfg now fetch t).fetchTarget = none := by
  rcases hbad with h | h | h
  · simp [IdTokenWithJose.verify_id_token, h]
  · simp [IdTokenWithJose.verify_id_token, h]
  · cases hpool : cfg.cognito_user_pool_id with
    | none => simp [IdTokenWithJose.verify_id_token, hpool]
    | some p =>
      by_cases hp : p = ""
      · simp [IdTokenWithJose.verify_id_token, hpool, hp]
      · simp [IdTokenWithJose.verify_id_token, hpool, hp, h]

/-- C4 witness: cfg_nopool has no pool id; verification fails with the
configuration error and no JWKS URL is requested. -/
theorem verify_id_token_config_invalid_before_fetch_witness :
    ((IdTokenWithJose.verify_id_token cfg_nopool 500 fetch0 tok0).result =
        .error .configInvalidPoolId ∨
      (IdTokenWithJose.verify_id_token cfg_nopool 500 fetch0 tok0).result =
        .error .configInvalidClientIds) ∧
    (IdTokenWithJose.verify_id_token cfg_nopool 500 fetch0 tok0).fetchTarget = none :=
  verify_id_token_config_invalid_before_fetch cfg_nopool 500 fetch0 tok0 (Or.inl rfl)

/-- Appending strings concatenates their character lists. -/
theorem data_append_eq (s t : String) : (s ++ t).data = s.data ++ t.data := by
  cases s
  cases t
  rfl

/-- Counting the slash characters of the spec-shaped URL: six fixed
slashes plus whatever the three placeholders contribute. -/
theorem spec_jwks_url_slash_count (host region poolId : String) :
    (spec_jwks_url host region poolId).data.count '/' =
      6 + host.data.count '/' + region.data.count '/' + poolId.data.count '/' := by
  have h1 : "https://".data.count '/' = 2 := by decide
  have h2 : "/".data.count '/' = 1 := by decide
  have h3 : "/.well-known/jwks.json".data.count '/' = 2 := by decide
  simp only [spec_jwks_url, data_append_eq, List.count_append, h1, h2, h3]
  omega

/-- C5 counterexample: no issuer host makes the URL built by the source
(region inside the hostname, pool id as the only path segment) an
instance of the spec-shaped URL that carries the region and the pool id
as two path segments: the source URL has five slashes, the spec shape
at least six. -/
theorem get_cognito_jwks_url_not_spec_shape :
    ¬ ∃ host : String,
      spec_jwks_url host "us-east-1" "pool1" =
        IdTokenWithJose.get_cognito_jwks_url "us-east-1" "pool1" := by
  rintro ⟨host, h⟩
  have hc : (spec_jwks_url host "us-east-1" "pool1").data.count '/' =
      (IdTokenWithJose.get_cognito_jwks_url "us-east-1" "pool1").data.count '/' := by
    rw [h]
  rw [spec_jwks_url_slash_count] at hc
  have h4 : (IdTokenWithJose.get_cognito_jwks_url "us-east-1" "pool1").data.count '/' = 5 := by
    decide
  have h5 : "us-east-1".data.count '/' = 0 := by decide
  have h6 : "pool1".data.count '/' = 0 := by decide
  rw [h4, h5, h6] at hc
  omega

/-- C5 amended: the key-set fetch target is
https://cognito-idp.(issuer region).amazonaws.com/(pool id)/.well-known/jwks.json
with the region inside the hostname, not a path segment; the expected
issuer string https://cognito-idp.(issuer region).amazonaws.com/(pool id)
is computed once per verify call and passed unchanged to every
per-audience attempt. -/
theorem verify_id_token_url_and_issuer_form
    (cfg : CognitoConfig) (now : Nat) (fetch : Except Unit (List JWK)) (t : IdToken)
    (p kid : String) (hdr : TokenHeader) (keys : List JWK) (key : JWK)
    (hpool : cfg.cognito_user_pool_id = some p) (hp : p ≠ "")
    (hcl : cfg.cognito_client_ids ≠ [])
    (hhdr : t.header = some hdr) (hkid : hdr.kid = some kid) (hkne : kid ≠ "")
    (hf : fetch = .ok keys)
    (hfind : keys.find? (fun j => j.kid == kid) = some key) :
    (IdTokenWithJose.verify_id_token cfg now fetch t).fetchTarget =
      some (IdTokenWithJose.get_cognito_jwks_url (str_of_opt cfg.cognito_region) p) ∧
    ∀ pr ∈ (IdTokenWithJose.verify_id_token cfg now fetch t).attempts,
      pr.2 = IdTokenWithJose.expected_issuer (str_of_opt cfg.cognito_region) p := by
  rw [IdTokenWithJose.verify_id_token_reaches_loop cfg now fetch t p kid hdr keys key
    hpool hp hcl hhdr hkid hkne hf hfind]
  exact ⟨rfl, fun pr hpr => IdTokenWithJose.try_client_ids_issuer_fixed t key
    (IdTokenWithJose.expected_issuer (str_of_opt cfg.cognito_region) p) now
    cfg.cognito_client_ids none pr hpr⟩

/-- C5 amended witness at cfg0 and tok0. -/
theorem verify_id_token_url_and_issuer_form_witness :
    (IdTokenWithJose.verify_id_token cfg0 500 fetch0 tok0).fetchTarget =
      some (IdTokenWithJose.get_cognito_jwks_url "us-east-1" "pool1") ∧
    ∀ pr ∈ (IdTokenWithJose.verify_id_token cfg0 500 fetch0 tok0).attempts,
      pr.2 = IdTokenWithJose.expected_issuer "us-east-1" "pool1" :=
  verify_id_token_url_and_issuer_form cfg0 500 fetch0 tok0 "pool1" "kid1" ⟨some "kid1"⟩
    keys0 key0 rfl (by decide) (by decide) rfl rfl (by decide) rfl rfl

/-- C6 counterexample: two distinct failures, an expired token and a
structurally valid token whose token_use is access, are both collapsed
by get_user to None and answered by the HTTP layer with the same 401:
the distinguishing reason is not preserved in what the authenticator
returns. -/
theorem auth_failure_reason_not_preserved :
    (IdTokenWithJose.verify_id_token cfg0 500 fetch0 tok_expired).result =
      .error .tokenExpired ∧
    (IdTokenWithJose.verify_id_token cfg0 500 fetch0 tok_access).result =
      .ok tok_access.claims ∧
    tok_access.claims.token_use = some "access" ∧
    IdTokenWithJose.get_user cfg0 500 fetch0 (some tok_expired) = none ∧
    IdTokenWithJose.get_user cfg0 500 fetch0 (some tok_access) = none ∧
    api.get_hello_world cfg0 500 fetch0 (some tok_expired) =
      api.get_hello_world cfg0 500 fetch0 (some tok_access) :=
  ⟨rfl, rfl, rfl, rfl, rfl, rfl⟩

/-- C6 amended: verify_id_token surfaces each failure as a typed error
to get_user, but get_user converts every verification failure and every
projection failure to None, preserving no reason in its result (reasons
are only logged); the HTTP layer answers all of them with the same 401,
and the 500 branch is reserved for unexpected errors outside this
catch-all path. -/
theorem auth_failures_collapse_to_uniform_401
    (cfg : CognitoConfig) (now : Nat) (fetch : Except Unit (List JWK)) (t : IdToken)
    (hfail : (∃ e, (IdTokenWithJose.verify_id_token cfg now fetch t).result = .error e) ∨
      (∃ c, (IdTokenWithJose.verify_id_token cfg now fetch t).result = .ok c ∧
        c.token_use ≠ some "id")) :
    IdTokenWithJose.get_user cfg now fetch (some t) = none ∧
    api.get_hello_world cfg now fetch (some t) =
      ⟨.httpError 401 "Invalid or expired token. Check server logs for details.", true⟩ := by
  have hg : IdTokenWithJose.get_user cfg now fetch (some t) = none := by
    rcases hfail with ⟨e, he⟩ | ⟨c, hc, huse⟩
    · simp [IdTokenWithJose.get_user, he]
    · simp [IdTokenWithJose.get_user, hc, huse]
  refine ⟨hg, ?_⟩
  simp [api.get_hello_world, hg]

/-- C6 amended witness at the expired token. -/
theorem auth_failures_collapse_to_uniform_401_witness :
    IdTokenWithJose.get_user cfg0 500 fetch0 (some tok_expired) = none ∧
    api.get_hello_world cfg0 500 fetch0 (some tok_expired) =
      ⟨.httpError 401 "Invalid or expired token. Check server logs for details.", true⟩ :=
  auth_failures_collapse_to_uniform_401 cfg0 500 fetch0 tok_expired
    (Or.inl ⟨.tokenExpired, rfl⟩)

/-- C7: when verification succeeds but the token_use claim is not
exactly id, get_user rejects the token and produces no identity, even
though signature, issuer, audience and expiry all checked out. -/
theorem get_user_rejects_non_id_token_use
    (cfg : CognitoConfig) (now : Nat) (fetch : Except Unit (List JWK)) (t : IdToken)
    (c : Claims)
    (hok : (IdTokenWithJose.verify_id_token cfg now fetch t).result = .ok c)
    (huse : c.token_use ≠ some "id") :
    IdTokenWithJose.get_user cfg now fetch (some t) = none := by
  simp [IdTokenWithJose.get_user, hok, huse]

/-- C7 witness: tok_access verifies but carries token_use access. -/
theorem get_user_rejects_non_id_token_use_witness :
    IdTokenWithJose.get_user cfg0 500 fetch0 (some tok_access) = none :=
  get_user_rejects_non_id_token_use cfg0 500 fetch0 tok_access tok_access.claims rfl
    (by decide)

/-- C8: with the identity-token header absent, the endpoint answers 401
with the no-token detail and the token verifier is never invoked. -/
theorem get_hello_world_no_token_401_no_verify
    (cfg : CognitoConfig) (now : Nat) (fetch : Except Unit (List JWK)) :
    api.get_hello_world cfg now fetch none =
      ⟨.httpError 401 "No ID token provided. Expected X-IdToken header.", false⟩ := rfl

/-- C9: a token that authenticates yields the same identity when
verified twice in succession against the same configuration and key
set, and the configuration state is unchanged by each call. -/
theorem get_user_idempotent_state_unchanged
    (cfg : CognitoConfig) (now : Nat) (fetch : Except Unit (List JWK))
    (tok : Option IdToken) (u : User)
    (h : IdTokenWithJose.get_user cfg now fetch tok = some u) :
    IdTokenWithJose.get_user_st cfg now fetch tok = (some u, cfg) ∧
    IdTokenWithJose.get_user_st
      (IdTokenWithJose.get_user_st cfg now fetch tok).2 now fetch tok = (some u, cfg) := by
  constructor
  · simp [IdTokenWithJose.get_user_st, h]
  · simp [IdTokenWithJose.get_user_st, h]

/-- C9 witness: tok0 authenticates as user0 twice with the state
unchanged. -/
theorem get_user_idempotent_state_unchanged_witness :
    IdTokenWithJose.get_user_st cfg0 500 fetch0 (some tok0) = (some user0, cfg0) ∧
    IdTokenWithJose.get_user_st
      (IdTokenWithJose.get_user_st cfg0 500 fetch0 (some tok0)).2 500 fetch0 (some tok0) =
      (some user0, cfg0) :=
  get_user_idempotent_state_unchanged cfg0 500 fetch0 (some tok0) user0 rfl

end CoffeeTracker
